import Mathlib

/-!
Verification of the field-selective slog-based logging observer
(`src/argmin/src/core/observers/slog_logger.rs`).

The Rust code is embedded shallowly:
- `StateData` is the closed enumeration of loggable fields.
- `StateView` models the read-only `State` trait object (an external
  collaborator per the spec); numeric accessors are carried as their textual
  renderings (the numeric types are opaque `Display` types), optional
  `Debug`-rendered values are carried as `Option` values together with an
  opaque debug-rendering function.
- `Serializer` models `slog::Serializer`: a stateful sink whose `emit_*`
  methods may fail; `collector` is the infallible serializer that records
  the emitted entries in order (this is what the backend receives).
- `SlogLogger.observe_init` / `SlogLogger.observe_iter` hand the rendered
  record to the asynchronous drain (modelled as the `queue` field, FIFO) and
  return their result exactly as the Rust functions do.
- The file backend's `OpenOptions::open` call is modelled against an abstract
  `FileSystem` deciding which paths can be opened for writing.
-/

namespace ArgminSlog

/-- The closed enumeration of loggable fields (`StateData` in
`crate::core::state`; the variant list is fixed by the spec and by the match
in `LogState::serialize`). -/
inductive StateData where
  | BestCost
  | BestParam
  | Cost
  | FunctionCounts
  | IsBest
  | Iter
  | LastBestIter
  | MaxIters
  | Param
  | TargetCost
  | TerminationReason
  | TerminationStatus
  | Time
  deriving DecidableEq, Repr

/-- Modelled from the spec: each `StateData` variant has a fixed display name
used as the emitted key (`data.to_string()` in `LogState::serialize`; the
`Display` implementation lives in `crate::core::state`, outside `src/`). The
spec's examples fix the names "Iter" and "Cost"; the remaining variants use
their variant names. -/
def StateData.toString : StateData → String
  | .BestCost => "BestCost"
  | .BestParam => "BestParam"
  | .Cost => "Cost"
  | .FunctionCounts => "FunctionCounts"
  | .IsBest => "IsBest"
  | .Iter => "Iter"
  | .LastBestIter => "LastBestIter"
  | .MaxIters => "MaxIters"
  | .Param => "Param"
  | .TargetCost => "TargetCost"
  | .TerminationReason => "TerminationReason"
  | .TerminationStatus => "TerminationStatus"
  | .Time => "Time"

/-- A value emitted to a `slog::Serializer`: the observer uses `emit_str`,
`emit_u64` and `emit_bool`. -/
inductive SlogValue where
  | str (s : String)
  | u64 (n : Nat)
  | bool (b : Bool)
  deriving DecidableEq, Repr

/-- One emitted key/value entry. -/
abbrev Entry := String × SlogValue

/-- Modelled from the spec: the read-only `StateView` (the `State` trait, an
external collaborator not implemented in the observed file), one accessor per
field tag. Numeric accessors (`get_best_cost`, `get_cost`,
`get_target_cost`) and `get_termination_status` return opaque `Display`
values and are carried as their textual renderings; `get_termination_reason`
returns an optional reason carried as its descriptive text (`r.text()`);
`get_best_param`, `get_param` and `get_time` return optional opaque
`Debug`-renderable values. -/
structure StateView (P T : Type) where
  bestCost : String
  bestParam : Option P
  cost : String
  funcCounts : List (String × Nat)
  isBest : Bool
  iter : Nat
  lastBestIter : Nat
  maxIters : Nat
  param : Option P
  targetCost : String
  terminationReason : Option String
  terminationStatus : String
  time : Option T

/-- Modelled from the spec: the auxiliary `KV` record (`crate::core::KV`,
outside `src/`): an ordered sequence of (key, displayable value) pairs. -/
structure KV (α : Type) where
  kv : List (String × α)

/-- The two overflow strategies of `slog_async::Async`. -/
inductive OverflowStrategy where
  | Block
  | Drop
  deriving DecidableEq, Repr

/-- A `slog::Serializer`: a stateful sink whose emit methods can fail with a
formatting/write error. `σ` is the serializer's internal state. -/
structure Serializer (σ : Type) where
  emitStr : σ → String → String → Except String σ
  emitU64 : σ → String → Nat → Except String σ
  emitBool : σ → String → Bool → Except String σ

/-- The serializer that the drain path ultimately feeds: it collects the
emitted entries in emission order and never fails. -/
def collector : Serializer (List Entry) where
  emitStr := fun s k v => .ok (s ++ [(k, .str v)])
  emitU64 := fun s k v => .ok (s ++ [(k, .u64 v)])
  emitBool := fun s k v => .ok (s ++ [(k, .bool v)])

/-- The inner loop of the `StateData::FunctionCounts` arm:
`for (k, &v) in state.get_func_counts().iter() { serializer.emit_u64(Key::from(k.clone()), v)?; }`. -/
def serializeCounts {σ : Type} (ser : Serializer σ) : σ → List (String × Nat) → Except String σ
  | s, [] => .ok s
  | s, e :: rest =>
    match ser.emitU64 s e.1 e.2 with
    | .error msg => .error msg
    | .ok s => serializeCounts ser s rest

/-- One arm of the `match data` in `LogState::serialize`: the entries emitted
for a single tag, with `key = Key::from(data.to_string())`. -/
def serializeTag {σ P T : Type} (ser : Serializer σ) (dbgP : P → String) (dbgT : T → String)
    (state : StateView P T) (s : σ) (data : StateData) : Except String σ :=
  let key := data.toString
  match data with
  | .BestCost => ser.emitStr s key state.bestCost
  | .BestParam =>
    ser.emitStr s key (match state.bestParam with | none => "None" | some p => dbgP p)
  | .Cost => ser.emitStr s key state.cost
  | .FunctionCounts => serializeCounts ser s state.funcCounts
  | .IsBest => ser.emitBool s key state.isBest
  | .Iter => ser.emitU64 s key state.iter
  | .LastBestIter => ser.emitU64 s key state.lastBestIter
  | .MaxIters => ser.emitU64 s key state.maxIters
  | .Param =>
    ser.emitStr s key (match state.param with | none => "None" | some p => dbgP p)
  | .TargetCost => ser.emitStr s key state.targetCost
  | .TerminationReason =>
    ser.emitStr s key (match state.terminationReason with | none => "None" | some r => r)
  | .TerminationStatus => ser.emitStr s key state.terminationStatus
  | .Time =>
    ser.emitStr s key (match state.time with | none => "None" | some t => dbgT t)

/-- `LogState::serialize`: `for data in self.1 { ... }`, each arm's `?`
propagating the first serializer failure, `Ok(())` at the end. -/
def LogState.serialize {σ P T : Type} (ser : Serializer σ) (dbgP : P → String)
    (dbgT : T → String) (state : StateView P T) : σ → List StateData → Except String σ
  | s, [] => .ok s
  | s, data :: rest =>
    match serializeTag ser dbgP dbgT state s data with
    | .error msg => .error msg
    | .ok s => LogState.serialize ser dbgP dbgT state s rest

/-- `impl slog::KV for KV`:
`for idx in self.kv.iter() { serializer.emit_str(Key::from(*idx.0), &idx.1.to_string())?; }`. -/
def KV.serialize {σ α : Type} (ser : Serializer σ) (toStr : α → String) :
    σ → List (String × α) → Except String σ
  | s, [] => .ok s
  | s, e :: rest =>
    match ser.emitStr s e.1 (toStr e.2) with
    | .error msg => .error msg
    | .ok s => KV.serialize ser toStr s rest

/-- The logger: one async drain handle (modelled by its overflow strategy and
the FIFO queue of records handed to it) plus the field selection `log_data`. -/
structure SlogLogger where
  strategy : OverflowStrategy
  log_data : List StateData
  queue : List (String × List Entry)
  deriving DecidableEq, Repr

/-- `SlogLogger::data`: replaces `log_data` wholesale and returns the logger. -/
def SlogLogger.data (self : SlogLogger) (log_data : List StateData) : SlogLogger :=
  { self with log_data := log_data }

/-- `SlogLogger::term_internal`: builds the terminal drain with the given
overflow strategy and the default four-field selection. -/
def SlogLogger.term_internal (overflow_strategy : OverflowStrategy) : SlogLogger :=
  { strategy := overflow_strategy
    log_data := [.FunctionCounts, .BestCost, .Cost, .Iter]
    queue := [] }

/-- `SlogLogger::term`: terminal logger, blocking on full buffers. -/
def SlogLogger.term : SlogLogger :=
  SlogLogger.term_internal .Block

/-- `SlogLogger::term_noblock`: terminal logger, dropping on full buffers. -/
def SlogLogger.term_noblock : SlogLogger :=
  SlogLogger.term_internal .Drop

/-- An abstract file system: which paths `OpenOptions::new().create(true)
.write(true).truncate(t).open(path)` can open for writing. Whether the open
succeeds does not depend on the truncate flag (the flag only clears content). -/
structure FileSystem where
  openable : String → Bool

/-- The `OpenOptions` open call inside `file_internal`; fails exactly on
paths the file system cannot open for writing. -/
def OpenOptions.openFile (fs : FileSystem) (path : String) : Except String Unit :=
  if fs.openable path then .ok () else .error ("could not open " ++ path)

/-- `SlogLogger::file_internal`: opens the file (propagating the error with
`?`), then builds the JSON drain with the given overflow strategy and the
default four-field selection. -/
def SlogLogger.file_internal (fs : FileSystem) (file : String)
    (overflow_strategy : OverflowStrategy) (_truncate : Bool) : Except String SlogLogger :=
  match OpenOptions.openFile fs file with
  | .error msg => .error msg
  | .ok _ =>
    .ok { strategy := overflow_strategy
          log_data := [.FunctionCounts, .BestCost, .Cost, .Iter]
          queue := [] }

/-- `SlogLogger::file`: file logger, blocking on full buffers. -/
def SlogLogger.file (fs : FileSystem) (file : String) (truncate : Bool) :
    Except String SlogLogger :=
  SlogLogger.file_internal fs file .Block truncate

/-- `SlogLogger::file_noblock`: file logger, dropping on full buffers. -/
def SlogLogger.file_noblock (fs : FileSystem) (file : String) (truncate : Bool) :
    Except String SlogLogger :=
  SlogLogger.file_internal fs file .Drop truncate

/-- Extracts the entries collected by `collector` (the collecting serializer
never fails, so the error branch is unreachable). -/
def runCollector (m : Except String (List Entry)) : List Entry :=
  match m with
  | .ok s => s
  | .error _ => []

/-- The record of one `observe_iter` call as the drain serializes it:
`LogState(state, &self.log_data)` first, then the auxiliary `kv`, in declared
argument order (the terminal formatter is built with `use_original_order()`). -/
def emitRecord {P T α : Type} (dbgP : P → String) (dbgT : T → String) (toStr : α → String)
    (log_data : List StateData) (state : StateView P T) (kv : KV α) :
    Except String (List Entry) :=
  match LogState.serialize collector dbgP dbgT state [] log_data with
  | .error msg => .error msg
  | .ok s => KV.serialize collector toStr s kv.kv

/-- `SlogLogger::observe_init`: `info!(self.logger, "{}", msg; kv); Ok(())` —
hands the message and the auxiliary entries to the async drain and returns
`Ok(())`. -/
def SlogLogger.observe_init {α : Type} (toStr : α → String) (self : SlogLogger)
    (msg : String) (kv : KV α) : Except String Unit × SlogLogger :=
  (.ok (), { self with
    queue := self.queue ++ [(msg, runCollector (KV.serialize collector toStr [] kv.kv))] })

/-- `SlogLogger::observe_iter`:
`info!(self.logger, ""; LogState(state, &self.log_data), kv); Ok(())` —
hands the rendered record to the async drain and returns `Ok(())`. -/
def SlogLogger.observe_iter {P T α : Type} (dbgP : P → String) (dbgT : T → String)
    (toStr : α → String) (self : SlogLogger) (state : StateView P T) (kv : KV α) :
    Except String Unit × SlogLogger :=
  (.ok (), { self with
    queue := self.queue ++ [("", runCollector (emitRecord dbgP dbgT toStr self.log_data state kv))] })

/-- The entries a single tag contributes, as a pure list (the description the
claims are stated against; compared with the serializer loop below). -/
def tagEntries {P T : Type} (dbgP : P → String) (dbgT : T → String)
    (state : StateView P T) : StateData → List Entry
  | .BestCost => [(StateData.toString .BestCost, .str state.bestCost)]
  | .BestParam =>
    [(StateData.toString .BestParam,
      .str (match state.bestParam with | none => "None" | some p => dbgP p))]
  | .Cost => [(StateData.toString .Cost, .str state.cost)]
  | .FunctionCounts => state.funcCounts.map (fun e => (e.1, .u64 e.2))
  | .IsBest => [(StateData.toString .IsBest, .bool state.isBest)]
  | .Iter => [(StateData.toString .Iter, .u64 state.iter)]
  | .LastBestIter => [(StateData.toString .LastBestIter, .u64 state.lastBestIter)]
  | .MaxIters => [(StateData.toString .MaxIters, .u64 state.maxIters)]
  | .Param =>
    [(StateData.toString .Param,
      .str (match state.param with | none => "None" | some p => dbgP p))]
  | .TargetCost => [(StateData.toString .TargetCost, .str state.targetCost)]
  | .TerminationReason =>
    [(StateData.toString .TerminationReason,
      .str (match state.terminationReason with | none => "None" | some r => r))]
  | .TerminationStatus => [(StateData.toString .TerminationStatus, .str state.terminationStatus)]
  | .Time =>
    [(StateData.toString .Time,
      .str (match state.time with | none => "None" | some t => dbgT t))]

/-- The entries of a whole selection, tag after tag in selection order. -/
def selectionEntries {P T : Type} (dbgP : P → String) (dbgT : T → String)
    (state : StateView P T) : List StateData → List Entry
  | [] => []
  | d :: rest => tagEntries dbgP dbgT state d ++ selectionEntries dbgP dbgT state rest

/-- The auxiliary record's entries: each stored value rendered with its
`to_string`, keyed by the stored key, in the record's own order. -/
def kvEntries {α : Type} (toStr : α → String) (kv : KV α) : List Entry :=
  kv.kv.map (fun e => (e.1, .str (toStr e.2)))

/-- A serializer that fails on every emit: a backend experiencing a
formatting/write failure while rendering a record. -/
def failSerializer : Serializer Unit where
  emitStr := fun _ _ _ => .error "write failure"
  emitU64 := fun _ _ _ => .error "write failure"
  emitBool := fun _ _ _ => .error "write failure"

/-- Debug rendering for a trivial (unit) parameter type. -/
def unitDbg : Unit → String := fun _ => "()"

/-- A concrete state view used as a witness input. -/
def sampleState : StateView Unit Unit where
  bestCost := "0.5"
  bestParam := some ()
  cost := "1.23"
  funcCounts := [("cost", 3), ("grad", 1)]
  isBest := true
  iter := 7
  lastBestIter := 4
  maxIters := 100
  param := some ()
  targetCost := "0"
  terminationReason := some "Maximum number of iterations reached"
  terminationStatus := "NotTerminated"
  time := some ()

/-- A concrete auxiliary record used as a witness input. -/
def sampleKV : KV String :=
  { kv := [("aux1", "x"), ("aux2", "y")] }

/-- A file system on which every path opens. -/
def openAllFS : FileSystem :=
  { openable := fun _ => true }

/-- A file system on which only the path "good.log" opens. -/
def goodOnlyFS : FileSystem :=
  { openable := fun p => p == "good.log" }

/-- The logger every successful file constructor returns (before any call),
with the given overflow strategy. -/
def fileFreshLogger (strat : OverflowStrategy) : SlogLogger :=
  { strategy := strat
    log_data := [.FunctionCounts, .BestCost, .Cost, .Iter]
    queue := [] }

theorem collector_emitStr (s : List Entry) (k v : String) :
    collector.emitStr s k v = .ok (s ++ [(k, .str v)]) := rfl

theorem collector_emitU64 (s : List Entry) (k : String) (v : Nat) :
    collector.emitU64 s k v = .ok (s ++ [(k, .u64 v)]) := rfl

theorem collector_emitBool (s : List Entry) (k : String) (v : Bool) :
    collector.emitBool s k v = .ok (s ++ [(k, .bool v)]) := rfl

theorem serializeCounts_collector (l : List (String × Nat)) :
    ∀ s : List Entry, serializeCounts collector s l
      = .ok (s ++ l.map (fun e => (e.1, SlogValue.u64 e.2))) := by
  induction l with
  | nil => intro s; simp [serializeCounts]
  | cons e rest ih =>
    intro s
    simp [serializeCounts, collector_emitU64, ih]

theorem serializeTag_collector {P T : Type} (dbgP : P → String) (dbgT : T → String)
    (state : StateView P T) (s : List Entry) (d : StateData) :
    serializeTag collector dbgP dbgT state s d
      = .ok (s ++ tagEntries dbgP dbgT state d) := by
  cases d <;>
    simp [serializeTag, tagEntries, collector_emitStr, collector_emitU64,
      collector_emitBool, serializeCounts_collector]

theorem logState_serialize_collector {P T : Type} (dbgP : P → String) (dbgT : T → String)
    (state : StateView P T) (sel : List StateData) :
    ∀ s : List Entry, LogState.serialize collector dbgP dbgT state s sel
      = .ok (s ++ selectionEntries dbgP dbgT state sel) := by
  induction sel with
  | nil => intro s; simp [LogState.serialize, selectionEntries]
  | cons d rest ih =>
    intro s
    simp [LogState.serialize, selectionEntries, serializeTag_collector, ih]

theorem kv_serialize_collector {α : Type} (toStr : α → String) (l : List (String × α)) :
    ∀ s : List Entry, KV.serialize collector toStr s l
      = .ok (s ++ l.map (fun e => (e.1, SlogValue.str (toStr e.2)))) := by
  induction l with
  | nil => intro s; simp [KV.serialize]
  | cons e rest ih =>
    intro s
    simp [KV.serialize, collector_emitStr, ih]

theorem emitRecord_collector {P T α : Type} (dbgP : P → String) (dbgT : T → String)
    (toStr : α → String) (log_data : List StateData) (state : StateView P T) (kv : KV α) :
    emitRecord dbgP dbgT toStr log_data state kv
      = .ok (selectionEntries dbgP dbgT state log_data ++ kvEntries toStr kv) := by
  simp [emitRecord, logState_serialize_collector, kv_serialize_collector, kvEntries]

theorem file_internal_ok (fs : FileSystem) (path : String) (strat : OverflowStrategy)
    (tr : Bool) (l : SlogLogger)
    (h : SlogLogger.file_internal fs path strat tr = .ok l) : l = fileFreshLogger strat := by
  by_cases hfs : fs.openable path
  · simp [SlogLogger.file_internal, OpenOptions.openFile, hfs] at h
    simp [fileFreshLogger, ← h]
  · simp [SlogLogger.file_internal, OpenOptions.openFile, hfs] at h

/-- C1: for every field selection, state view and auxiliary record, the record
`observe_iter` hands to the drain is exactly the field-derived entries in
selection order followed by the auxiliary record's entries in their own order;
no entry is reordered or deduplicated against another field entry or against
the auxiliary record. -/
theorem observe_iter_emission_order {P T α : Type} (dbgP : P → String) (dbgT : T → String)
    (toStr : α → String) (logger : SlogLogger) (state : StateView P T) (kv : KV α) :
    (logger.observe_iter dbgP dbgT toStr state kv).2.queue
      = logger.queue
        ++ [("", selectionEntries dbgP dbgT state logger.log_data ++ kvEntries toStr kv)] := by
  simp [SlogLogger.observe_iter, runCollector, emitRecord_collector]

/-- C2: with selection [FunctionCounts] and function-count mapping
{cost ↦ 3, grad ↦ 1}, the serialized record is exactly the two entries
("cost", 3) and ("grad", 1) as unsigned integers, one entry per (name, count)
pair keyed by the name, and no entry is keyed by the literal text
"FunctionCounts". -/
theorem function_counts_expansion {P T : Type} (dbgP : P → String) (dbgT : T → String)
    (state : StateView P T) (h : state.funcCounts = [("cost", 3), ("grad", 1)]) :
    LogState.serialize collector dbgP dbgT state [] [.FunctionCounts]
      = .ok [("cost", .u64 3), ("grad", .u64 1)]
    ∧ ∀ e ∈ [(("cost" : String), SlogValue.u64 3), ("grad", SlogValue.u64 1)],
        e.1 ≠ "FunctionCounts" := by
  constructor
  · simp [logState_serialize_collector, selectionEntries, tagEntries, h]
  · decide

/-- C2 witness: the expansion evaluated at the concrete sample state. -/
theorem function_counts_expansion_witness :
    LogState.serialize collector unitDbg unitDbg sampleState [] [.FunctionCounts]
      = .ok [("cost", .u64 3), ("grad", .u64 1)] :=
  (function_counts_expansion unitDbg unitDbg sampleState rfl).1

/-- C3 counterexample: with a backend whose serializer fails on every emit (a
formatting/write failure while rendering this very record), rendering the
default record of the sample state fails, yet `observe_iter` returns `Ok ()`
rather than an error: the failure is not an error result of the call. -/
theorem delivery_error_counterexample :
    LogState.serialize failSerializer unitDbg unitDbg sampleState ()
        SlogLogger.term.log_data = .error "write failure"
    ∧ (SlogLogger.term.observe_iter unitDbg unitDbg id sampleState sampleKV).1 = .ok () :=
  ⟨rfl, rfl⟩

/-- C3 (amended): `observe_init` and `observe_iter` always return `Ok`; a
formatting or write failure encountered by the backend while rendering the
record occurs in the asynchronous drain and is never returned as an error
result of the call, and the logger remains usable for subsequent calls. -/
theorem observe_calls_always_ok {P T α : Type} (dbgP : P → String) (dbgT : T → String)
    (toStr : α → String) (logger : SlogLogger) (msg : String) (state : StateView P T)
    (kv : KV α) :
    (logger.observe_init toStr msg kv).1 = .ok ()
    ∧ (logger.observe_iter dbgP dbgT toStr state kv).1 = .ok () :=
  ⟨rfl, rfl⟩

/-- C4: BestParam, Param, Time and TerminationReason render as the literal
text "None" when the underlying optional value is absent, and as the
(non-empty) debug/textual rendering of the value when present. The hypotheses
record that the opaque debug renderings and the reason text of the external
collaborator types are non-empty. -/
theorem optional_field_rendering {P T : Type} (dbgP : P → String) (dbgT : T → String)
    (state : StateView P T) (s : List Entry)
    (hP : ∀ p : P, dbgP p ≠ "") (hT : ∀ t : T, dbgT t ≠ "")
    (hR : state.terminationReason ≠ some "") :
    (state.bestParam = none →
      serializeTag collector dbgP dbgT state s .BestParam
        = .ok (s ++ [("BestParam", .str "None")]))
    ∧ (∀ p, state.bestParam = some p →
        serializeTag collector dbgP dbgT state s .BestParam
          = .ok (s ++ [("BestParam", .str (dbgP p))]) ∧ dbgP p ≠ "")
    ∧ (state.param = none →
        serializeTag collector dbgP dbgT state s .Param
          = .ok (s ++ [("Param", .str "None")]))
    ∧ (∀ p, state.param = some p →
        serializeTag collector dbgP dbgT state s .Param
          = .ok (s ++ [("Param", .str (dbgP p))]) ∧ dbgP p ≠ "")
    ∧ (state.time = none →
        serializeTag collector dbgP dbgT state s .Time
          = .ok (s ++ [("Time", .str "None")]))
    ∧ (∀ t, state.time = some t →
        serializeTag collector dbgP dbgT state s .Time
          = .ok (s ++ [("Time", .str (dbgT t))]) ∧ dbgT t ≠ "")
    ∧ (state.terminationReason = none →
        serializeTag collector dbgP dbgT state s .TerminationReason
          = .ok (s ++ [("TerminationReason", .str "None")]))
    ∧ (∀ r, state.terminationReason = some r →
        serializeTag collector dbgP dbgT state s .TerminationReason
          = .ok (s ++ [("TerminationReason", .str r)]) ∧ r ≠ "") := by
  refine ⟨fun h => ?_, fun p h => ⟨?_, hP p⟩, fun h => ?_, fun p h => ⟨?_, hP p⟩,
    fun h => ?_, fun t h => ⟨?_, hT t⟩, fun h => ?_,
    fun r h => ⟨?_, fun hr => hR (by rw [h, hr])⟩⟩ <;>
    simp [serializeTag, collector_emitStr, StateData.toString, h]

/-- C4 witness: the rendering evaluated at the concrete sample state, whose
optional values are all present with non-empty renderings. -/
theorem optional_field_rendering_witness :
    serializeTag collector unitDbg unitDbg sampleState [] .BestParam
      = .ok [("BestParam", .str "()")]
    ∧ serializeTag collector unitDbg unitDbg sampleState [] .TerminationReason
      = .ok [("TerminationReason", .str "Maximum number of iterations reached")] := by
  have h := optional_field_rendering unitDbg unitDbg sampleState []
    (fun p => by cases p; decide) (fun t => by cases t; decide) (by decide)
  exact ⟨by simpa using (h.2.1 () rfl).1,
    by simpa using (h.2.2.2.2.2.2.2 "Maximum number of iterations reached" rfl).1⟩

/-- C5: all four constructors (terminal blocking, terminal non-blocking, file
blocking, file non-blocking) produce a logger whose initial field selection is
exactly [FunctionCounts, BestCost, Cost, Iter], in that order. -/
theorem constructors_default_selection (fs : FileSystem) (path : String) (tr : Bool)
    (l₁ l₂ : SlogLogger) :
    SlogLogger.term.log_data = [.FunctionCounts, .BestCost, .Cost, .Iter]
    ∧ SlogLogger.term_noblock.log_data = [.FunctionCounts, .BestCost, .Cost, .Iter]
    ∧ (SlogLogger.file fs path tr = .ok l₁ →
        l₁.log_data = [.FunctionCounts, .BestCost, .Cost, .Iter])
    ∧ (SlogLogger.file_noblock fs path tr = .ok l₂ →
        l₂.log_data = [.FunctionCounts, .BestCost, .Cost, .Iter]) := by
  refine ⟨rfl, rfl, fun h => ?_, fun h => ?_⟩ <;>
    rw [file_internal_ok fs path _ tr _ h] <;> rfl

/-- C5 witness: the four selections evaluated on a file system where the open
succeeds. -/
theorem constructors_default_selection_witness :
    SlogLogger.term.log_data = [.FunctionCounts, .BestCost, .Cost, .Iter]
    ∧ (fileFreshLogger .Block).log_data = [.FunctionCounts, .BestCost, .Cost, .Iter]
    ∧ (fileFreshLogger .Drop).log_data = [.FunctionCounts, .BestCost, .Cost, .Iter] := by
  have h := constructors_default_selection openAllFS "run.log" true
    (fileFreshLogger .Block) (fileFreshLogger .Drop)
  exact ⟨h.1, h.2.2.1 rfl, h.2.2.2 rfl⟩

/-- C6: a tag occurring twice produces its entries twice: [Iter, Iter] with
iter = 7 yields exactly ("Iter", 7), ("Iter", 7); in general every repeated
occurrence appends its own entries, with no de-duplication. -/
theorem duplicate_tags_preserved {P T : Type} (dbgP : P → String) (dbgT : T → String)
    (state : StateView P T) (h : state.iter = 7) :
    LogState.serialize collector dbgP dbgT state [] [.Iter, .Iter]
      = .ok [("Iter", .u64 7), ("Iter", .u64 7)]
    ∧ ∀ (d : StateData) (sel : List StateData) (s : List Entry),
        LogState.serialize collector dbgP dbgT state s (d :: d :: sel)
          = LogState.serialize collector dbgP dbgT state
              (s ++ tagEntries dbgP dbgT state d ++ tagEntries dbgP dbgT state d) sel := by
  constructor
  · simp [logState_serialize_collector, selectionEntries, tagEntries, StateData.toString, h]
  · intro d sel s
    simp [LogState.serialize, serializeTag_collector, List.append_assoc]

/-- C6 witness: the duplicated selection evaluated at the concrete sample
state, whose iteration count is 7. -/
theorem duplicate_tags_preserved_witness :
    LogState.serialize collector unitDbg unitDbg sampleState [] [.Iter, .Iter]
      = .ok [("Iter", .u64 7), ("Iter", .u64 7)] :=
  (duplicate_tags_preserved unitDbg unitDbg sampleState rfl).1

/-- C7: when the path cannot be opened for writing, both file constructors
return an error from the constructing call itself and produce no logger; when
the open succeeds, each returns a usable logger. -/
theorem file_construction_error (fs : FileSystem) (path : String) (tr : Bool) :
    (fs.openable path = false →
      SlogLogger.file fs path tr = .error ("could not open " ++ path)
      ∧ SlogLogger.file_noblock fs path tr = .error ("could not open " ++ path))
    ∧ (fs.openable path = true →
      SlogLogger.file fs path tr = .ok (fileFreshLogger .Block)
      ∧ SlogLogger.file_noblock fs path tr = .ok (fileFreshLogger .Drop)) := by
  constructor <;> intro hfs <;>
    constructor <;>
      simp [SlogLogger.file, SlogLogger.file_noblock, SlogLogger.file_internal,
        OpenOptions.openFile, fileFreshLogger, hfs]

/-- C7 witness: on a file system where only "good.log" opens, construction at
"bad.log" fails and construction at "good.log" succeeds. -/
theorem file_construction_error_witness :
    SlogLogger.file goodOnlyFS "bad.log" false = .error ("could not open " ++ "bad.log")
    ∧ SlogLogger.file_noblock goodOnlyFS "good.log" true = .ok (fileFreshLogger .Drop) := by
  have h1 := file_construction_error goodOnlyFS "bad.log" false
  have h2 := file_construction_error goodOnlyFS "good.log" true
  exact ⟨(h1.1 rfl).1, (h2.2 rfl).2⟩

/-- C8: the constructor fixes the overflow strategy of the asynchronous sink:
the terminal and file constructors use Block, the non-blocking terminal and
non-blocking file constructors use Drop (one blocking and one dropping
constructor per backend family). -/
theorem constructors_overflow_strategy (fs : FileSystem) (path : String) (tr : Bool)
    (l₁ l₂ : SlogLogger) :
    SlogLogger.term.strategy = .Block
    ∧ SlogLogger.term_noblock.strategy = .Drop
    ∧ (SlogLogger.file fs path tr = .ok l₁ → l₁.strategy = .Block)
    ∧ (SlogLogger.file_noblock fs path tr = .ok l₂ → l₂.strategy = .Drop) := by
  refine ⟨rfl, rfl, fun h => ?_, fun h => ?_⟩ <;>
    rw [file_internal_ok fs path _ tr _ h] <;> rfl

/-- C8 witness: the four strategies evaluated on a file system where the open
succeeds. -/
theorem constructors_overflow_strategy_witness :
    SlogLogger.term.strategy = .Block
    ∧ SlogLogger.term_noblock.strategy = .Drop
    ∧ (fileFreshLogger .Block).strategy = .Block
    ∧ (fileFreshLogger .Drop).strategy = .Drop := by
  have h := constructors_overflow_strategy openAllFS "run.log" false
    (fileFreshLogger .Block) (fileFreshLogger .Drop)
  exact ⟨h.1, h.2.1, h.2.2.1 rfl, h.2.2.2 rfl⟩

/-- C9: the field-selection setter replaces the selection wholesale with
exactly the given sequence (an empty one included), performs no validation,
cannot fail (it is a total function), returns the logger for chaining, and
modifies no other part of the logger. -/
theorem data_replaces_selection (logger : SlogLogger) (sel : List StateData) :
    (logger.data sel).log_data = sel
    ∧ (logger.data sel).strategy = logger.strategy
    ∧ (logger.data sel).queue = logger.queue
    ∧ (logger.data []).log_data = [] :=
  ⟨rfl, rfl, rfl, rfl⟩

/-- C10: every auxiliary entry is emitted as a string obtained from the
to_string rendering of its stored value, keyed by its stored key, iterating
the record in its own order, for any stored value type; `observe_init` hands
exactly these entries to the drain, and the auxiliary record itself is read
only (the call consumes it without modification). -/
theorem kv_entries_rendering {α : Type} (toStr : α → String) (kv : KV α)
    (s : List Entry) (logger : SlogLogger) (msg : String) :
    KV.serialize collector toStr s kv.kv
      = .ok (s ++ kv.kv.map (fun e => (e.1, SlogValue.str (toStr e.2))))
    ∧ (logger.observe_init toStr msg kv).2.queue
      = logger.queue ++ [(msg, kvEntries toStr kv)] := by
  constructor
  · exact kv_serialize_collector toStr kv.kv s
  · simp [SlogLogger.observe_init, runCollector, kv_serialize_collector, kvEntries]

end ArgminSlog
